import Mathlib

set_option maxRecDepth 8000

/-!
Verification development for the AnalystIQ document intake pipeline
(`Main-cloud-function.py`).  The Python source is shallowly embedded:
strings become `List Char` (`PyText`), the keyword tables are transcribed
verbatim, scores are modelled as exact rationals (the Python floats involved
are small decimal literals and none of the claims hinges on a floating-point
borderline), and the two external collaborators (the Document AI client and
the Gemini secondary classifier) are modelled as explicit outcome parameters.
-/

/-- Extracted text, modelled as the list of its characters. -/
abbrev PyText := List Char

/-- The whitespace characters relevant after control-character filtering;
Python's `str.split()` / `str.strip()` treat all of these as whitespace. -/
def isSpaceChar (c : Char) : Bool :=
  c == ' ' || c == '\t' || c == '\n' || c == '\r'

/-- The filter `ord(char) >= 32 or char in '\n\r\t'` from
`sanitize_extracted_text`. -/
def keptByControlFilter (c : Char) : Bool :=
  32 ≤ c.toNat || c == '\n' || c == '\r' || c == '\t'

/-- Helper for Python's `str.split()` (split on whitespace runs, no empty
words); `acc` is the current word accumulated in reverse. -/
def pySplitAux : PyText → PyText → List PyText
  | [], acc => if acc.isEmpty then [] else [acc.reverse]
  | c :: cs, acc =>
    if isSpaceChar c then
      if acc.isEmpty then pySplitAux cs [] else acc.reverse :: pySplitAux cs []
    else
      pySplitAux cs (c :: acc)

/-- Python's `str.split()` with no arguments. -/
def pySplit (t : PyText) : List PyText := pySplitAux t []

/-- Python's `' '.join(words)`. -/
def joinSpace : List PyText → PyText
  | [] => []
  | [w] => w
  | w :: ws => w ++ ' ' :: joinSpace ws

/-- `sanitize_extracted_text` from the source: drop null bytes, drop control
characters other than tab/newline/carriage-return, then collapse every
whitespace run via `' '.join(text.split())`. -/
def sanitize_extracted_text (text : PyText) : PyText :=
  let no_null := text.filter (fun c => !(c == '\x00'))
  let no_ctrl := no_null.filter keptByControlFilter
  joinSpace (pySplit no_ctrl)

/-- ASCII lower-casing of one character (`str.lower()` on the texts the
validator handles). -/
def lowerChar (c : Char) : Char :=
  if 65 ≤ c.toNat ∧ c.toNat ≤ 90 then Char.ofNat (c.toNat + 32) else c

/-- ASCII upper-casing of one character (`str.upper()`). -/
def upperChar (c : Char) : Char :=
  if 97 ≤ c.toNat ∧ c.toNat ≤ 122 then Char.ofNat (c.toNat - 32) else c

/-- Python's `text.lower()`. -/
def pyLower (t : PyText) : PyText := t.map lowerChar

/-- Python's `text.upper()`. -/
def pyUpper (t : PyText) : PyText := t.map upperChar

/-- Python's `text.strip()`: drop whitespace from both ends. -/
def pyStrip (t : PyText) : PyText :=
  ((t.dropWhile isSpaceChar).reverse.dropWhile isSpaceChar).reverse

/-- Python's `text.split('\n')` (keeps empty lines, `''.split` gives one
empty line). -/
def splitLines : PyText → List PyText
  | [] => [[]]
  | c :: cs =>
    if c == '\n' then [] :: splitLines cs
    else
      match splitLines cs with
      | [] => [[c]]
      | l :: ls => (c :: l) :: ls

/-- `sum(1 for kw in keywords if kw in text_lower)`: the number of keywords
of the list occurring as a substring of the text. -/
def countMatches (keywords : List String) (text_lower : PyText) : Nat :=
  (keywords.filter (fun kw => decide (kw.toList <:+: text_lower))).length

/-- One weighted category of the validator: it contributes
`keyword_matches * weight` when at least `minHits` of its keywords occur,
else `0`.  Every weight in the source is a decimal with one fractional
digit, so all scores are modelled exactly as naturals scaled by 10
(`weight10` is ten times the Python weight); every threshold comparison
below is the exact rational comparison, cross-multiplied by 10. -/
def categoryScore (minHits : Nat) (keywords : List String) (weight10 : Nat)
    (text_lower : PyText) : Nat :=
  let keyword_matches := countMatches keywords text_lower
  if minHits ≤ keyword_matches then keyword_matches * weight10 else 0

example : pySplit ("a  b\n c".toList) = [['a'], ['b'], ['c']] := by decide
example : sanitize_extracted_text ("ab\n cd".toList) = "ab cd".toList := by decide
example : splitLines ("a\nb".toList) = [['a'], ['b']] := by decide
example : pyStrip ("  ab ".toList) = "ab".toList := by decide

/-! ## The Content Validator (`validate_extraction`) and its keyword tables -/

/-- `MIN_EXTRACTED_TEXT` from the source. -/
def MIN_EXTRACTED_TEXT : Nat := 50

/-- Layer 0 business-context vocabulary (verbatim from the source). -/
def business_context_keywords : List String :=
  ["startup", "founder", "investment", "funding", "pitch deck",
   "business model", "revenue", "market opportunity", "team",
   "traction", "ceo", "co-founder", "raise", "series", "seed",
   "investors", "board", "advisory", "go-to-market", "financial",
   "vet hospital", "healthcare service", "medical startup"]

/-- `business_context_score` of Layer 0. -/
def business_context_score_of (text_lower : PyText) : Nat :=
  countMatches business_context_keywords text_lower

/-- Layer 1 `identity_docs` keywords, weight 3.0. -/
def identity_docs_keywords : List String :=
  ["passport", "aadhar", "pan number", "ssn", "social security",
   "driving license", "voter id", "national id", "id card", "license number",
   "national identification", "voter card", "id proof"]

/-- Layer 1 `personal_medical` keywords, weight 2.5 (skippable per Layer 0). -/
def personal_medical_keywords : List String :=
  ["prescription", "medical report", "diagnosis", "discharge summary",
   "patient", "physician", "hospital", "clinic", "medical certificate",
   "health record", "patient id", "doctor"]

/-- Layer 1 `personal_financial` keywords, weight 2.8. -/
def personal_financial_keywords : List String :=
  ["credit card", "debit card", "bank account", "account number",
   "swift code", "ifsc", "epfo", "pf account", "uan number",
   "provident fund", "bank statement", "cheque", "account holder"]

/-- Layer 1 `personal_legal` keywords, weight 2.5. -/
def personal_legal_keywords : List String :=
  ["birth certificate", "marriage certificate", "divorce", "will", "testament",
   "adoption", "death certificate", "legal document"]

/-- Layer 1 `resume_cv` keywords, weight 3.5. -/
def resume_cv_keywords : List String :=
  ["objective:", "work experience", "skills section", "education:", "references",
   "cv", "resume", "curriculum vitae", "employment history", "professional summary"]

/-- Layer 1 `personal_photos` keywords, weight 1.5. -/
def personal_photos_keywords : List String :=
  ["photo", "photograph", "selfie", "portrait", "headshot", "image", "picture"]

/-- Layer 1 `personal_score`, scaled by 10 (weights 3.0, 2.5, 2.8, 2.5,
3.5, 1.5 become 30, 25, 28, 25, 35, 15): sum of the weighted categories
that reach 3 keyword hits; `personal_medical` is skipped when Layer 0
detected business context. -/
def personal_score_of (text_lower : PyText) (skip_personal_medical : Bool) : Nat :=
  categoryScore 3 identity_docs_keywords 30 text_lower
  + (if skip_personal_medical then 0
     else categoryScore 3 personal_medical_keywords 25 text_lower)
  + categoryScore 3 personal_financial_keywords 28 text_lower
  + categoryScore 3 personal_legal_keywords 25 text_lower
  + categoryScore 3 resume_cv_keywords 35 text_lower
  + categoryScore 3 personal_photos_keywords 15 text_lower

/-- Layer 2 `recipe` keywords, weight 2.5. -/
def recipe_keywords : List String :=
  ["recipe", "ingredients", "cooking", "bake", "fry", "boil", "simmer", "instructions"]

/-- Layer 2 `news_article` keywords, weight 2.0. -/
def news_article_keywords : List String :=
  ["breaking news", "news article", "associated press", "reuters", "cnn", "bbc",
   "news report", "journalist", "published", "headline"]

/-- Layer 2 `tutorial` keywords, weight 2.0. -/
def tutorial_keywords : List String :=
  ["tutorial", "how to", "step by step", "beginner guide", "for dummies", "instructions"]

/-- Layer 2 `entertainment` keywords, weight 2.0. -/
def entertainment_keywords : List String :=
  ["movie", "film", "actor", "actress", "screenplay", "plot summary", "netflix", "imdb"]

/-- Layer 2 `meme_cartoon` keywords, weight 2.5. -/
def meme_cartoon_keywords : List String :=
  ["meme", "comic", "cartoon", "joke", "funny", "laugh", "hilarious"]

/-- Layer 2 `non_business_score`, scaled by 10 (weights 2.5, 2.0, 2.0, 2.0,
2.5 become 25, 20, 20, 20, 25): categories qualify at 3 hits. -/
def non_business_score_of (text_lower : PyText) : Nat :=
  categoryScore 3 recipe_keywords 25 text_lower
  + categoryScore 3 news_article_keywords 20 text_lower
  + categoryScore 3 tutorial_keywords 20 text_lower
  + categoryScore 3 entertainment_keywords 20 text_lower
  + categoryScore 3 meme_cartoon_keywords 25 text_lower

/-- Layer 3 `pitch_deck` keywords, weight 1.5. -/
def pitch_deck_keywords : List String :=
  ["pitch", "startup", "investment opportunity", "funding round", "series a",
   "seed round", "venture capital", "investor", "raise", "seed funding"]

/-- Layer 3 `financial` keywords, weight 1.3. -/
def financial_keywords : List String :=
  ["revenue", "profit", "loss", "balance sheet", "cash flow", "ebitda",
   "financial projection", "forecast", "budget", "burn rate", "arr", "mrr", "expenses"]

/-- Layer 3 `market_analysis` keywords, weight 1.2. -/
def market_analysis_keywords : List String :=
  ["market size", "tam", "sam", "sop", "competitive analysis",
   "market share", "competitor", "industry analysis", "market opportunity"]

/-- Layer 3 `product` keywords, weight 1.0. -/
def product_keywords : List String :=
  ["product", "feature", "technology", "platform", "software", "service",
   "solution", "development", "engineering", "product roadmap"]

/-- Layer 3 `team` keywords, weight 1.1. -/
def team_keywords : List String :=
  ["founder", "ceo", "team", "experience", "background", "expertise", "advisor",
   "management team", "leadership"]

/-- Layer 3 `traction` keywords, weight 1.0. -/
def traction_keywords : List String :=
  ["user", "customer", "growth", "metric", "kpi", "retention", "acquisition",
   "traction", "milestone", "achievement", "users", "monthly active"]

/-- Layer 3 `business_score`, scaled by 10 (weights 1.5, 1.3, 1.2, 1.0,
1.1, 1.0 become 15, 13, 12, 10, 11, 10): categories qualify at a single
hit. -/
def business_score_of (text_lower : PyText) : Nat :=
  categoryScore 1 pitch_deck_keywords 15 text_lower
  + categoryScore 1 financial_keywords 13 text_lower
  + categoryScore 1 market_analysis_keywords 12 text_lower
  + categoryScore 1 product_keywords 10 text_lower
  + categoryScore 1 team_keywords 11 text_lower
  + categoryScore 1 traction_keywords 10 text_lower

/-- Layer 5 `word_count = len(full_text.split())`. -/
def word_count_of (full_text : PyText) : Nat := (pySplit full_text).length

/-- Layer 5 `very_short_lines`: lines of the text with non-empty stripped
content shorter than 20 characters
(`sum(1 for line in lines if len(line.strip()) < 20 and line.strip())`). -/
def very_short_lines_of (full_text : PyText) : Nat :=
  ((splitLines full_text).filter (fun line =>
    decide ((pyStrip line).length < 20) && !(pyStrip line).isEmpty)).length

/-- Layer 5 check `short_line_ratio > 0.85` where
`short_line_ratio = very_short_lines / max(len(lines), 1)`, stated by
cross-multiplication: `v / m > 85/100` iff `100 * v > 85 * m`
(equivalently `20 * v > 17 * m`). -/
def short_line_ratio_exceeds (full_text : PyText) : Prop :=
  85 * max (splitLines full_text).length 1
    < 100 * very_short_lines_of full_text

instance (full_text : PyText) : Decidable (short_line_ratio_exceeds full_text) := by
  unfold short_line_ratio_exceeds; infer_instance

/-- The validation verdict `(is_valid, error_code, message)` returned by
`validate_extraction`. -/
structure Verdict where
  is_valid : Bool
  code : String
  message : String
deriving DecidableEq, Repr

/-- The outside world seen by one `gemini_document_type_check` call: either
no model was available, or the generate call raised, or the model produced a
response text. -/
inductive GeminiOutcome where
  | noModel : GeminiOutcome
  | failure : GeminiOutcome
  | response : PyText → GeminiOutcome
deriving DecidableEq

/-- `gemini_document_type_check` from the source: with no model available or
on an internal exception it returns the numeric fallback
`business_score >= 4` (here `40 ≤` the score scaled by 10); on a response
it answers whether `"YES"` occurs in the upper-cased stripped response
text. -/
def gemini_document_type_check (outcome : GeminiOutcome) (business_score : Nat) : Bool :=
  match outcome with
  | GeminiOutcome.noModel => decide (40 ≤ business_score)
  | GeminiOutcome.failure => decide (40 ≤ business_score)
  | GeminiOutcome.response s =>
      decide (("YES".toList) <:+: pyUpper (pyStrip s))

/-- The input of the validator: the relevant fields of the `extracted_data`
dict. -/
structure ExtractionResult where
  full_text : PyText
  page_count : Nat
  processing_method : String
deriving DecidableEq

/-- `validate_extraction` from the source: sanitize, then the two
preconditions, then Layers 0-6 in order, short-circuiting at the first
rejection.  The Layer 6 secondary-classifier call is modelled by the
`gemini` outcome parameter. -/
def validate_extraction (extracted_data : ExtractionResult)
    (gemini : GeminiOutcome) : Verdict :=
  let full_text := sanitize_extracted_text extracted_data.full_text
  let page_count := extracted_data.page_count
  if full_text.isEmpty ∨ full_text.length < MIN_EXTRACTED_TEXT then
    ⟨false, "NO_TEXT_EXTRACTED", "Unable to extract readable text from document. The file may be corrupted, image-only, encrypted, or not a valid business document."⟩
  else if page_count = 0 then
    ⟨false, "NO_PAGES_DETECTED", "Document appears to be empty or unreadable."⟩
  else
    let text_lower := pyLower full_text
    let skip_personal_medical := decide (3 ≤ business_context_score_of text_lower)
    let personal_score := personal_score_of text_lower skip_personal_medical
    -- `personal_score > 8` in the source; scores are scaled by 10
    if 80 < personal_score then
      ⟨false, "PERSONAL_DOCUMENT", "This document contains personal information and cannot be analyzed. Please upload business documents only."⟩
    else
      let non_business_score := non_business_score_of text_lower
      -- `non_business_score > 10`
      if 100 < non_business_score then
        ⟨false, "NOT_BUSINESS_CONTENT", "This document does not appear to be a business document. Please upload startup pitch decks, financial models, or business-related documents."⟩
      else
        let business_score := business_score_of text_lower
        -- `business_score < 2`
        if business_score < 20 then
          ⟨false, "INSUFFICIENT_BUSINESS_CONTENT", "Document does not contain enough business-related content. Please upload pitch decks, financial models, market research, or business documents."⟩
        -- `business_score > 0 and personal_score / business_score > 1.5
        -- and personal_score > 5`, cross-multiplied (both sides are scaled
        -- by the same factor 10, so the ratio is unchanged)
        else if 0 < business_score ∧
            (3 * business_score < 2 * personal_score ∧ 50 < personal_score) then
          ⟨false, "MIXED_PERSONAL_BUSINESS", "Document contains a mix of personal and business content. Please upload pure business documents."⟩
        else if word_count_of full_text < 30 then
          ⟨false, "INSUFFICIENT_CONTENT", "Document is too short to be a valid business document. Please upload documents with more detailed content."⟩
        else if short_line_ratio_exceeds full_text then
          ⟨false, "LIKELY_STRUCTURED_DOCUMENT", "This appears to be a structured form or ID document, not a business document. Please upload proper business documents."⟩
        -- `business_score < 3`
        else if business_score < 30 ∧
            gemini_document_type_check gemini business_score = false then
          ⟨false, "GEMINI_VALIDATION_FAILED", "AI analysis suggests this may not be a business document. Please verify and try again."⟩
        else
          ⟨true, "VALID", "Content validation passed - Valid business document"⟩

/-! ## The Document Role Classifier and the File-Set Validator -/

/-- The result of `classify_document_type`. -/
structure DocClassification where
  type : String
  is_primary : Bool
  description : String
deriving DecidableEq

/-- Resume vocabulary of `classify_document_type` (threshold 2). -/
def classify_resume_keywords : List String :=
  ["objective:", "work experience", "skills section", "education:",
   "references", "cv", "resume", "curriculum vitae", "employment history"]

/-- Pitch-deck vocabulary of `classify_document_type` (threshold 2). -/
def classify_pitch_keywords : List String :=
  ["pitch", "startup", "investment opportunity", "funding round",
   "series a", "seed round", "venture capital", "investor", "raise"]

/-- Financial-model vocabulary of `classify_document_type` (threshold 3). -/
def classify_financial_keywords : List String :=
  ["revenue", "profit", "cash flow", "budget", "burn rate",
   "financial projection", "forecast", "balance sheet", "ebitda"]

/-- Business-plan vocabulary of `classify_document_type` (threshold 2). -/
def classify_business_keywords : List String :=
  ["business model", "market analysis", "competitive analysis",
   "executive summary", "operations plan", "go-to-market"]

/-- Market-research vocabulary of `classify_document_type` (threshold 2). -/
def classify_market_keywords : List String :=
  ["market size", "competitors", "industry analysis", "market share",
   "competitive landscape", "market opportunity"]

/-- Placeholder filename passed to the classifier (its `filename` argument
is unused by the source logic). -/
def default_filename : String := "file"

/-- `classify_document_type` from the source: priority-ordered keyword-count
checks on the lower-cased text; the `filename` argument is unused by the
source logic as well. -/
def classify_document_type (extracted_text : PyText) (filename : String) :
    DocClassification :=
  let _ := filename
  let text_lower := pyLower extracted_text
  if 2 ≤ countMatches classify_resume_keywords text_lower then
    ⟨"RESUME", false, "Resume/CV - Supplementary document"⟩
  else if 2 ≤ countMatches classify_pitch_keywords text_lower then
    ⟨"PITCH_DECK", true, "Pitch Deck - Primary document"⟩
  else if 3 ≤ countMatches classify_financial_keywords text_lower then
    ⟨"FINANCIAL_MODEL", true, "Financial Model - Primary document"⟩
  else if 2 ≤ countMatches classify_business_keywords text_lower then
    ⟨"BUSINESS_PLAN", true, "Business Plan - Primary document"⟩
  else if 2 ≤ countMatches classify_market_keywords text_lower then
    ⟨"MARKET_RESEARCH", true, "Market Research - Primary document"⟩
  else
    ⟨"UNKNOWN", false, "Document type unclear"⟩

/-- `validate_file_set` from the source, over the files' extracted texts
(each file contributes its `full_text`): classify every file; any file whose
classification is primary sets `has_primary_document`, every other file
(RESUME or UNKNOWN alike) sets `has_supplementary_document`; then the three
cases in source order. -/
def validate_file_set (all_extracted_data : List PyText) : Verdict :=
  if all_extracted_data.isEmpty then
    ⟨false, "NO_FILES", "No files to validate"⟩
  else
    let document_types :=
      all_extracted_data.map (fun text => classify_document_type text default_filename)
    let has_primary_document := document_types.any (fun d => d.is_primary)
    let has_supplementary_document := document_types.any (fun d => !d.is_primary)
    if has_supplementary_document && !has_primary_document then
      ⟨false, "SUPPLEMENTARY_ONLY", "Resume/Profile alone cannot be analyzed. Please upload a pitch deck, financial model, or business plan along with it."⟩
    else if has_primary_document then
      ⟨true, "VALID", "File set validation passed"⟩
    else
      ⟨false, "UNKNOWN_DOCUMENTS", "Could not identify business documents. Please upload a pitch deck or financial model."⟩

/-! ## The Extraction Coordinator and the Batch Staging Manager -/

/-- The page-limit test of `extract_with_document_ai`'s error handler:
`"PAGE_LIMIT_EXCEEDED" in error_str or "non-imageless" in error_str or
"exceed" in error_str.lower()`. -/
def page_limit_error (error_str : PyText) : Bool :=
  decide (("PAGE_LIMIT_EXCEEDED".toList) <:+: error_str)
  || decide (("non-imageless".toList) <:+: error_str)
  || decide (("exceed".toList) <:+: pyLower error_str)

/-- Outcome of the synchronous (online) Document AI call. -/
inductive OnlineOutcome where
  | success : ExtractionResult → OnlineOutcome
  | failure : PyText → OnlineOutcome

/-- Outcome of `batch_process_document` as seen by the coordinator: a
successful merged result or a raised batch error. -/
inductive BatchOutcome where
  | success : ExtractionResult → BatchOutcome
  | failure : PyText → BatchOutcome

/-- The error-dispatch logic of `extract_with_document_ai`: online success is
returned; an online error falls back to batch processing exactly when
`page_limit_error` matches, re-raising a batch failure; any other online
error is re-raised with no fallback. -/
def extract_with_document_ai (online : OnlineOutcome) (batch : BatchOutcome) :
    Except PyText ExtractionResult :=
  match online with
  | OnlineOutcome.success r => Except.ok r
  | OnlineOutcome.failure error_str =>
    if page_limit_error error_str then
      match batch with
      | BatchOutcome.success r => Except.ok r
      | BatchOutcome.failure batch_error => Except.error batch_error
    else
      Except.error error_str

/-- One object discovered under the batch output prefix: its blob name and
the deserialized Document AI shard (extracted text and number of pages). -/
structure Shard where
  name : PyText
  text : PyText
  pages : Nat
deriving DecidableEq

/-- Python's `<=` on strings: lexicographic comparison by code point. -/
def pyTextLe : PyText → PyText → Bool
  | [], _ => true
  | _ :: _, [] => false
  | a :: as, b :: bs =>
    if a.toNat < b.toNat then true
    else if b.toNat < a.toNat then false
    else pyTextLe as bs

/-- The sort key of `sorted(json_blobs, key=lambda b: b.name)`. -/
def shardLe (a b : Shard) : Prop := pyTextLe a.name b.name = true

instance : DecidableRel shardLe := fun a b =>
  inferInstanceAs (Decidable (pyTextLe a.name b.name = true))

/-- Outcome of the best-effort GCS cleanup at the end of
`batch_process_document`. -/
inductive CleanupOutcome where
  | success : CleanupOutcome
  | failure : PyText → CleanupOutcome

/-- The merge-and-cleanup phase of `batch_process_document`, given the
objects listed under the output prefix: filter to `.json` shards, sort by
blob name (Python's stable `sorted(..., key=lambda b: b.name)`, modelled by
a stable insertion sort under `shardLe`), concatenate `"\n" + document.text`
for every shard with non-empty text, sum the page counts, attempt cleanup
(whose failure is caught and only logged), and return the merged result; no
`.json` shard is a raised error. -/
def batch_process_document (output_blobs : List Shard)
    (cleanup : CleanupOutcome) : Except PyText ExtractionResult :=
  if output_blobs.isEmpty then
    Except.error ("No output files found in GCS. Check if bucket exists and batch job produced output.".toList)
  else
    let json_blobs := output_blobs.filter (fun b => (".json".toList).isSuffixOf b.name)
    if json_blobs.isEmpty then
      Except.error ("Could not find any JSON output files from batch processing.".toList)
    else
      let sorted_blobs := json_blobs.insertionSort shardLe
      let all_text := sorted_blobs.foldl
        (fun acc b => if b.text.isEmpty then acc else acc ++ '\n' :: b.text) []
      let page_count := sorted_blobs.foldl (fun acc b => acc + b.pages) 0
      match cleanup with
      | CleanupOutcome.success =>
          Except.ok ⟨all_text, page_count, "batch_ocr"⟩
      | CleanupOutcome.failure _ =>
          -- the source catches the cleanup exception and only logs it
          Except.ok ⟨all_text, page_count, "batch_ocr"⟩

/-! ## Structural lemmas about sanitization -/

/-- Every word produced by `pySplitAux` is non-empty and whitespace-free
(provided the accumulator is whitespace-free). -/
theorem pySplitAux_words (t : PyText) :
    ∀ acc, (∀ c ∈ acc, isSpaceChar c = false) →
      ∀ w ∈ pySplitAux t acc, w ≠ [] ∧ ∀ c ∈ w, isSpaceChar c = false := by
  induction t with
  | nil =>
    intro acc hacc w hw
    by_cases h : acc.isEmpty
    · simp [pySplitAux, h] at hw
    · simp only [pySplitAux, h, Bool.false_eq_true, if_false, List.mem_singleton] at hw
      subst hw
      refine ⟨?_, ?_⟩
      · simp only [List.isEmpty_iff] at h
        simpa using h
      · intro c hc
        exact hacc c (by simpa using hc)
  | cons a t ih =>
    intro acc hacc w hw
    by_cases hs : isSpaceChar a
    · by_cases he : acc.isEmpty
      · rw [pySplitAux, if_pos hs, if_pos he] at hw
        exact ih [] (by simp) w hw
      · rw [pySplitAux, if_pos hs, if_neg he] at hw
        rcases List.mem_cons.mp hw with hw | hw
        · subst hw
          refine ⟨?_, ?_⟩
          · simp only [List.isEmpty_iff] at he
            simpa using he
          · intro c hc
            exact hacc c (by simpa using hc)
        · exact ih [] (by simp) w hw
    · rw [pySplitAux, if_neg hs] at hw
      refine ih (a :: acc) ?_ w hw
      intro c hc
      rcases List.mem_cons.mp hc with rfl | hc
      · simpa using hs
      · exact hacc c hc

/-- Every word of `pySplit t` is non-empty and whitespace-free. -/
theorem pySplit_words (t : PyText) :
    ∀ w ∈ pySplit t, w ≠ [] ∧ ∀ c ∈ w, isSpaceChar c = false :=
  pySplitAux_words t [] (by simp)

/-- Unfolding equation of `joinSpace` on a list of two or more words. -/
theorem joinSpace_cons_cons (w v : PyText) (vs : List PyText) :
    joinSpace (w :: v :: vs) = w ++ ' ' :: joinSpace (v :: vs) := rfl

/-- Every character of `joinSpace ws` is a plain space or a character of
one of the words. -/
theorem mem_joinSpace (ws : List PyText) :
    ∀ c ∈ joinSpace ws, c = ' ' ∨ ∃ w ∈ ws, c ∈ w := by
  induction ws with
  | nil => simp [joinSpace]
  | cons w ws ih =>
    intro c hc
    cases ws with
    | nil =>
      simp only [joinSpace] at hc
      exact Or.inr ⟨w, by simp, hc⟩
    | cons v vs =>
      rw [joinSpace_cons_cons] at hc
      rcases List.mem_append.mp hc with hc | hc
      · exact Or.inr ⟨w, by simp, hc⟩
      · rcases List.mem_cons.mp hc with rfl | hc
        · exact Or.inl rfl
        · rcases ih c hc with h | ⟨u, hu, hcu⟩
          · exact Or.inl h
          · exact Or.inr ⟨u, List.mem_cons_of_mem _ hu, hcu⟩

/-- `joinSpace` of non-empty words is non-empty when the word list is. -/
theorem joinSpace_ne_nil (ws : List PyText) (hws : ws ≠ [])
    (h : ∀ w ∈ ws, w ≠ []) : joinSpace ws ≠ [] := by
  cases ws with
  | nil => exact absurd rfl hws
  | cons w vs =>
    cases vs with
    | nil => exact h w (by simp)
    | cons v vs =>
      rw [joinSpace_cons_cons]
      intro hcontra
      rcases List.append_eq_nil.mp hcontra with ⟨hw, hrest⟩
      exact List.cons_ne_nil _ _ hrest

/-- The first character of `joinSpace` of non-empty whitespace-free words
is not whitespace. -/
theorem joinSpace_head (ws : List PyText)
    (h : ∀ w ∈ ws, w ≠ [] ∧ ∀ c ∈ w, isSpaceChar c = false) :
    ∀ c ∈ (joinSpace ws).head?, isSpaceChar c = false := by
  cases ws with
  | nil => simp [joinSpace]
  | cons w vs =>
    have hw := h w (by simp)
    cases vs with
    | nil =>
      intro c hc
      exact hw.2 c (List.mem_of_mem_head? hc)
    | cons v vs =>
      rw [joinSpace_cons_cons]
      intro c hc
      rw [List.head?_append] at hc
      rcases hw with ⟨hwne, hwchars⟩
      cases hhw : w.head? with
      | none => exact absurd (List.head?_eq_none_iff.mp hhw) hwne
      | some d =>
        rw [hhw] at hc
        simp only [Option.or, Option.mem_def, Option.some.injEq] at hc
        subst hc
        exact hwchars d (List.mem_of_mem_head? (by simp [hhw]))

/-- The last character of `joinSpace` of non-empty whitespace-free words
is not whitespace. -/
theorem joinSpace_getLast (ws : List PyText)
    (h : ∀ w ∈ ws, w ≠ [] ∧ ∀ c ∈ w, isSpaceChar c = false) :
    ∀ c ∈ (joinSpace ws).getLast?, isSpaceChar c = false := by
  induction ws with
  | nil => simp [joinSpace]
  | cons w vs ih =>
    have hw := h w (by simp)
    cases vs with
    | nil =>
      intro c hc
      have hcw : c ∈ w := by
        refine List.mem_of_mem_getLast? ?_
        simpa [joinSpace] using hc
      exact hw.2 c hcw
    | cons v vs =>
      rw [joinSpace_cons_cons]
      intro c hc
      rw [List.getLast?_append] at hc
      have hvs : joinSpace (v :: vs) ≠ [] :=
        joinSpace_ne_nil _ (by simp) (fun u hu => (h u (List.mem_cons_of_mem _ hu)).1)
      have hlast : (' ' :: joinSpace (v :: vs)).getLast? =
          (joinSpace (v :: vs)).getLast? := by
        cases hj : joinSpace (v :: vs) with
        | nil => exact absurd hj hvs
        | cons x xs => simp [List.getLast?_cons_cons]
      rw [hlast] at hc
      cases hg : (joinSpace (v :: vs)).getLast? with
      | none =>
        exact absurd (List.getLast?_eq_none_iff.mp hg) hvs
      | some d =>
        rw [hg] at hc
        simp only [Option.or, Option.mem_def, Option.some.injEq] at hc
        subst hc
        exact ih (fun u hu => h u (List.mem_cons_of_mem _ hu)) d (by simp [hg])

/-- `sanitize_extracted_text` unfolded. -/
theorem sanitize_eq (t : PyText) :
    sanitize_extracted_text t =
      joinSpace (pySplit
        ((t.filter (fun c => !(c == '\x00'))).filter keptByControlFilter)) := rfl

/-- The sanitized text contains no newline: every whitespace run was
collapsed to single plain spaces. -/
theorem newline_not_mem_sanitize (t : PyText) :
    '\n' ∉ sanitize_extracted_text t := by
  rw [sanitize_eq]
  intro hmem
  rcases mem_joinSpace _ _ hmem with h | ⟨w, hw, hcw⟩
  · exact absurd h (by decide)
  · have hns := (pySplit_words _ w hw).2 '\n' hcw
    exact absurd hns (by decide)

/-- Splitting a newline-free text on `'\n'` yields that text as the only
line. -/
theorem splitLines_eq_single (t : PyText) (h : '\n' ∉ t) : splitLines t = [t] := by
  induction t with
  | nil => rfl
  | cons c cs ih =>
    have hc : ¬(c == '\n') = true := by
      simp only [beq_iff_eq]
      intro hceq
      exact h (by simp [hceq])
    rw [splitLines, if_neg hc, ih (fun hm => h (List.mem_cons_of_mem _ hm))]

/-- `dropWhile` is the identity when the first character (if any) fails the
predicate. -/
theorem dropWhile_eq_self_of_head (t : PyText)
    (h : ∀ c ∈ t.head?, isSpaceChar c = false) :
    t.dropWhile isSpaceChar = t := by
  cases t with
  | nil => rfl
  | cons a l =>
    have ha : isSpaceChar a = false := h a (by simp)
    simp [List.dropWhile_cons, ha]

/-- `strip()` is the identity on texts with non-whitespace first and last
characters. -/
theorem pyStrip_eq_self (t : PyText)
    (hh : ∀ c ∈ t.head?, isSpaceChar c = false)
    (hl : ∀ c ∈ t.getLast?, isSpaceChar c = false) :
    pyStrip t = t := by
  unfold pyStrip
  rw [dropWhile_eq_self_of_head t hh]
  rw [dropWhile_eq_self_of_head t.reverse
    (by simpa [List.head?_reverse] using hl)]
  exact List.reverse_reverse t

/-- Sanitized text never starts or ends with whitespace, so `strip()` leaves
it unchanged. -/
theorem pyStrip_sanitize (t : PyText) :
    pyStrip (sanitize_extracted_text t) = sanitize_extracted_text t := by
  rw [sanitize_eq]
  exact pyStrip_eq_self _
    (joinSpace_head _ (pySplit_words _))
    (joinSpace_getLast _ (pySplit_words _))

/-- The Layer 5 line split of a sanitized text is always the single line
consisting of the whole text. -/
theorem splitLines_sanitize (t : PyText) :
    splitLines (sanitize_extracted_text t) = [sanitize_extracted_text t] :=
  splitLines_eq_single _ (newline_not_mem_sanitize t)

/-- On sanitized text that passed the length precondition, Layer 5 counts
zero very short lines. -/
theorem very_short_lines_sanitize (t : PyText)
    (h : MIN_EXTRACTED_TEXT ≤ (sanitize_extracted_text t).length) :
    very_short_lines_of (sanitize_extracted_text t) = 0 := by
  unfold very_short_lines_of
  rw [splitLines_sanitize]
  have hfalse : (decide ((pyStrip (sanitize_extracted_text t)).length < 20)
      && !(pyStrip (sanitize_extracted_text t)).isEmpty) = false := by
    rw [pyStrip_sanitize]
    have hlen : ¬((sanitize_extracted_text t).length < 20) := by
      unfold MIN_EXTRACTED_TEXT at h
      omega
    simp [hlen]
  simp [List.filter_cons, hfalse]

/-! ## Helper lemmas about scoring, sorting and classification -/

/-- A sublist of keywords that all occur in the text bounds `countMatches`
from below. -/
theorem le_countMatches (keywords : List String) (text_lower : PyText)
    (sub : List String) (hsub : sub.Sublist keywords)
    (hall : ∀ kw ∈ sub, kw.toList <:+: text_lower) :
    sub.length ≤ countMatches keywords text_lower := by
  unfold countMatches
  have hfil : sub.filter (fun kw => decide (kw.toList <:+: text_lower)) = sub :=
    List.filter_eq_self.mpr (fun kw hkw => decide_eq_true (hall kw hkw))
  calc sub.length
      = (sub.filter (fun kw => decide (kw.toList <:+: text_lower))).length := by
        rw [hfil]
    _ ≤ _ := (hsub.filter _).length_le

/-- A qualifying category contributes at least `n * weight10` once it has at
least `n ≥ minHits` keyword hits. -/
theorem categoryScore_ge (minHits : Nat) (keywords : List String) (w10 : Nat)
    (tl : PyText) (n : Nat) (hm : minHits ≤ n)
    (hn : n ≤ countMatches keywords tl) :
    n * w10 ≤ categoryScore minHits keywords w10 tl := by
  unfold categoryScore
  rw [if_pos (le_trans hm hn)]
  exact Nat.mul_le_mul_right _ hn

/-- `pyTextLe` is total. -/
theorem pyTextLe_total (a : PyText) :
    ∀ b, pyTextLe a b = true ∨ pyTextLe b a = true := by
  induction a with
  | nil => intro b; exact Or.inl rfl
  | cons x xs ih =>
    intro b
    cases b with
    | nil => exact Or.inr rfl
    | cons y ys =>
      rcases Nat.lt_trichotomy x.toNat y.toNat with h | h | h
      · left
        simp [pyTextLe, h]
      · have h1 : ¬ x.toNat < y.toNat := by omega
        have h2 : ¬ y.toNat < x.toNat := by omega
        rcases ih ys with hle | hle
        · left
          simp [pyTextLe, h1, h2, hle]
        · right
          simp [pyTextLe, h1, h2, hle]
      · right
        simp [pyTextLe, h]

/-- `pyTextLe` is transitive. -/
theorem pyTextLe_trans (a : PyText) :
    ∀ b c, pyTextLe a b = true → pyTextLe b c = true → pyTextLe a c = true := by
  induction a with
  | nil => intro b c _ _; rfl
  | cons x xs ih =>
    intro b c hab hbc
    cases b with
    | nil => simp [pyTextLe] at hab
    | cons y ys =>
      cases c with
      | nil => simp [pyTextLe] at hbc
      | cons z zs =>
        rw [pyTextLe] at hab hbc ⊢
        by_cases hxy : x.toNat < y.toNat
        · by_cases hyz : y.toNat < z.toNat
          · have hxz : x.toNat < z.toNat := by omega
            simp [hxz]
          · by_cases hzy : z.toNat < y.toNat
            · rw [if_neg hyz, if_pos hzy] at hbc
              simp at hbc
            · have hxz : x.toNat < z.toNat := by omega
              simp [hxz]
        · by_cases hyx : y.toNat < x.toNat
          · rw [if_neg hxy, if_pos hyx] at hab
            simp at hab
          · rw [if_neg hxy, if_neg hyx] at hab
            by_cases hyz : y.toNat < z.toNat
            · have hxz : x.toNat < z.toNat := by omega
              simp [hxz]
            · by_cases hzy : z.toNat < y.toNat
              · rw [if_neg hyz, if_pos hzy] at hbc
                simp at hbc
              · rw [if_neg hyz, if_neg hzy] at hbc
                have hxz : ¬ x.toNat < z.toNat := by omega
                have hzx : ¬ z.toNat < x.toNat := by omega
                rw [if_neg hxz, if_neg hzx]
                exact ih ys zs hab hbc

instance : IsTotal Shard shardLe :=
  ⟨fun a b => pyTextLe_total a.name b.name⟩

instance : IsTrans Shard shardLe :=
  ⟨fun a b c hab hbc => pyTextLe_trans a.name b.name c.name hab hbc⟩

/-- The text-merging fold of `batch_process_document` appends, for each
shard in order, a newline followed by the shard's text - skipping shards
with empty text. -/
theorem foldl_text_append (ws : List Shard) :
    ∀ acc, ws.foldl
        (fun acc b => if b.text.isEmpty then acc else acc ++ '\n' :: b.text) acc
      = acc ++ ws.flatMap (fun b => if b.text.isEmpty then [] else '\n' :: b.text) := by
  induction ws with
  | nil => intro acc; simp
  | cons w ws ih =>
    intro acc
    rw [List.foldl_cons, List.flatMap_cons, ih]
    by_cases h : w.text.isEmpty
    · simp [h]
    · simp [h, List.append_assoc]

/-- The page-count fold of `batch_process_document` sums the shards' page
counts. -/
theorem foldl_pages_sum (ws : List Shard) :
    ∀ n, ws.foldl (fun acc b => acc + b.pages) n
      = n + (ws.map (fun b => b.pages)).sum := by
  induction ws with
  | nil => simp
  | cons w ws ih =>
    intro n
    rw [List.foldl_cons, List.map_cons, List.sum_cons, ih]
    omega

/-- A classification of type UNKNOWN is never primary. -/
theorem classify_unknown_not_primary (t : PyText) (f : String)
    (h : (classify_document_type t f).type = "UNKNOWN") :
    (classify_document_type t f).is_primary = false := by
  unfold classify_document_type at h ⊢
  dsimp only at h ⊢
  split_ifs at h ⊢ <;> simp_all

/-! ## Claim C3 -/

/-- Concrete input refuting the unconditional half of C3: empty text and
zero pages. -/
def c3_input : ExtractionResult := ⟨[], 0, "online_ocr"⟩

/-- C3 counterexample: for an ExtractionResult with `page_count = 0` whose
text is too short, `validate_extraction` returns NO_TEXT_EXTRACTED, not
NO_PAGES_DETECTED - so "for every ExtractionResult with page_count = 0 it
returns NO_PAGES_DETECTED" is false as stated. -/
theorem C3_counterexample :
    c3_input.page_count = 0 ∧
    (validate_extraction c3_input GeminiOutcome.failure).code = "NO_TEXT_EXTRACTED" ∧
    (validate_extraction c3_input GeminiOutcome.failure).code ≠ "NO_PAGES_DETECTED" := by
  refine ⟨rfl, rfl, ?_⟩
  decide

/-- C3 (amended): `validate_extraction` rejects with NO_TEXT_EXTRACTED
whenever the sanitized text is shorter than `MIN_EXTRACTED_TEXT = 50`
characters, and for every ExtractionResult whose sanitized text meets the
length threshold and whose `page_count` is zero it returns
NO_PAGES_DETECTED - for every classifier outcome, i.e. before any scoring
layer can influence the verdict. -/
theorem C3_preconditions (e : ExtractionResult) (o : GeminiOutcome) :
    ((sanitize_extracted_text e.full_text).length < MIN_EXTRACTED_TEXT →
      validate_extraction e o =
        ⟨false, "NO_TEXT_EXTRACTED", "Unable to extract readable text from document. The file may be corrupted, image-only, encrypted, or not a valid business document."⟩) ∧
    (MIN_EXTRACTED_TEXT ≤ (sanitize_extracted_text e.full_text).length →
      e.page_count = 0 →
      validate_extraction e o =
        ⟨false, "NO_PAGES_DETECTED", "Document appears to be empty or unreadable."⟩) := by
  constructor
  · intro h
    unfold validate_extraction
    dsimp only
    rw [if_pos (Or.inr h)]
  · intro h hp
    have hne : ¬((sanitize_extracted_text e.full_text).isEmpty = true ∨
        (sanitize_extracted_text e.full_text).length < MIN_EXTRACTED_TEXT) := by
      rintro (he | hl)
      · rw [List.isEmpty_iff] at he
        rw [he] at h
        simp [MIN_EXTRACTED_TEXT] at h
      · omega
    unfold validate_extraction
    dsimp only
    rw [if_neg hne, if_pos hp]

/-! ## Claim C10 -/

/-- C10: sanitization collapses every whitespace run (newlines included)
into single spaces, so the Layer 5 split on `'\n'` always yields exactly
one line, that line is at least `MIN_EXTRACTED_TEXT` characters long when
Layer 5 is reached, the very-short-line count is 0, and consequently
`validate_extraction` never returns LIKELY_STRUCTURED_DOCUMENT on any
input: that rejection branch is unreachable. -/
theorem C10_structured_unreachable :
    (∀ t : PyText,
      splitLines (sanitize_extracted_text t) = [sanitize_extracted_text t]) ∧
    (∀ (e : ExtractionResult) (o : GeminiOutcome),
      (validate_extraction e o).code ≠ "LIKELY_STRUCTURED_DOCUMENT") := by
  refine ⟨splitLines_sanitize, ?_⟩
  intro e o
  unfold validate_extraction
  dsimp only
  split_ifs with h1 h2 h3 h4 h5 h6 h7 h8 h9
  · decide
  · decide
  · decide
  · decide
  · decide
  · decide
  · decide
  · exfalso
    have hlen : MIN_EXTRACTED_TEXT ≤ (sanitize_extracted_text e.full_text).length := by
      rcases Nat.lt_or_ge (sanitize_extracted_text e.full_text).length
          MIN_EXTRACTED_TEXT with hl | hl
      · exact absurd (Or.inr hl) h1
      · exact hl
    have h0 := very_short_lines_sanitize e.full_text hlen
    unfold short_line_ratio_exceeds at h8
    rw [h0, splitLines_sanitize] at h8
    simp at h8
  · decide
  · decide

/-! ## Claim C8 -/

/-- C8: for every input that passes the length and page-count
preconditions and whose lower-cased sanitized text contains the
`resume_cv` keywords "resume", "cv", "work experience" and "education:",
the `resume_cv` category reaches the 3-hit qualifying bar, the personal
score (scaled by 10) exceeds 80 whether or not `personal_medical` is
skipped, and `validate_extraction` rejects with PERSONAL_DOCUMENT. -/
theorem C8_resume_rejection (e : ExtractionResult) (o : GeminiOutcome)
    (hlen : MIN_EXTRACTED_TEXT ≤ (sanitize_extracted_text e.full_text).length)
    (hpage : e.page_count ≠ 0)
    (hkw1 : ("resume".toList) <:+: pyLower (sanitize_extracted_text e.full_text))
    (hkw2 : ("cv".toList) <:+: pyLower (sanitize_extracted_text e.full_text))
    (hkw3 : ("work experience".toList) <:+: pyLower (sanitize_extracted_text e.full_text))
    (hkw4 : ("education:".toList) <:+: pyLower (sanitize_extracted_text e.full_text)) :
    3 ≤ countMatches resume_cv_keywords (pyLower (sanitize_extracted_text e.full_text)) ∧
    (∀ skip : Bool,
      80 < personal_score_of (pyLower (sanitize_extracted_text e.full_text)) skip) ∧
    validate_extraction e o =
      ⟨false, "PERSONAL_DOCUMENT", "This document contains personal information and cannot be analyzed. Please upload business documents only."⟩ := by
  have hcount : 4 ≤ countMatches resume_cv_keywords
      (pyLower (sanitize_extracted_text e.full_text)) := by
    have hsub : (["work experience", "education:", "cv", "resume"] : List String).Sublist
        resume_cv_keywords := by decide
    have hle := le_countMatches resume_cv_keywords
      (pyLower (sanitize_extracted_text e.full_text))
      ["work experience", "education:", "cv", "resume"] hsub ?_
    · simpa using hle
    · intro kw hkw
      simp only [List.mem_cons, List.not_mem_nil, or_false] at hkw
      rcases hkw with rfl | rfl | rfl | rfl
      · exact hkw3
      · exact hkw4
      · exact hkw2
      · exact hkw1
  have hscore : ∀ skip : Bool,
      80 < personal_score_of (pyLower (sanitize_extracted_text e.full_text)) skip := by
    intro skip
    have hcat : 4 * 35 ≤ categoryScore 3 resume_cv_keywords 35
        (pyLower (sanitize_extracted_text e.full_text)) :=
      categoryScore_ge 3 resume_cv_keywords 35 _ 4 (by omega) hcount
    unfold personal_score_of
    cases skip with
    | false =>
      rw [if_neg (by simp)]
      omega
    | true =>
      rw [if_pos rfl]
      omega
  refine ⟨by omega, hscore, ?_⟩
  have hne : ¬((sanitize_extracted_text e.full_text).isEmpty = true ∨
      (sanitize_extracted_text e.full_text).length < MIN_EXTRACTED_TEXT) := by
    rintro (he | hl)
    · rw [List.isEmpty_iff] at he
      rw [he] at hlen
      simp [MIN_EXTRACTED_TEXT] at hlen
    · omega
  unfold validate_extraction
  dsimp only
  rw [if_neg hne, if_neg hpage, if_pos (hscore _)]

/-- Concrete input for the C8 witness: all four resume keywords plus
filler, 52 characters. -/
def c8_text : PyText :=
  ("resume cv work experience education: b c d e f g h i").toList

/-- Witness for `C8_resume_rejection` at a concrete input. -/
theorem C8_resume_rejection_witness :
    validate_extraction ⟨c8_text, 1, "online_ocr"⟩ GeminiOutcome.failure =
      ⟨false, "PERSONAL_DOCUMENT", "This document contains personal information and cannot be analyzed. Please upload business documents only."⟩ :=
  (C8_resume_rejection ⟨c8_text, 1, "online_ocr"⟩ GeminiOutcome.failure
    (by decide) (by decide) (by decide) (by decide) (by decide) (by decide)).2.2

/-! ## Claim C9 -/

/-- A text whose business score is 21 (scaled by 10), i.e. 2.1, inside the
Layer 6 band `[2, 3)`: one `product` hit and one `team` hit, padded to 30
words with single letters. -/
def c9_text : PyText :=
  ("the team made a product b c d e f g h i j k l m n o p q r s t u v w x y z").toList

/-- C9 counterexample: on an input whose business score falls below 3,
the verdict depends on the outcome of the external Layer 6 classifier
call, which is not part of the ExtractionResult - the same ExtractionResult
yields a passing verdict when the classifier answers YES and a rejection
when the classifier call fails, so `validate` is not a function of the
ExtractionResult alone. -/
theorem C9_counterexample :
    (validate_extraction ⟨c9_text, 1, "online_ocr"⟩
      (GeminiOutcome.response ("YES".toList))).is_valid = true ∧
    (validate_extraction ⟨c9_text, 1, "online_ocr"⟩
      GeminiOutcome.failure).is_valid = false ∧
    validate_extraction ⟨c9_text, 1, "online_ocr"⟩
        (GeminiOutcome.response ("YES".toList)) ≠
      validate_extraction ⟨c9_text, 1, "online_ocr"⟩ GeminiOutcome.failure := by
  have h1 : (validate_extraction ⟨c9_text, 1, "online_ocr"⟩
      (GeminiOutcome.response ("YES".toList))).is_valid = true := by decide
  have h2 : (validate_extraction ⟨c9_text, 1, "online_ocr"⟩
      GeminiOutcome.failure).is_valid = false := by decide
  refine ⟨h1, h2, fun heq => ?_⟩
  rw [heq] at h1
  exact Bool.noConfusion (h1.symm.trans h2)

/-- C9 (amended): `validate_extraction` is deterministic in its input
together with the Layer 6 classifier outcome: the verdict depends only on
`full_text` and `page_count` (not on `processing_method` or any hidden
state), and whenever `business_score ≥ 3` (scaled: `≥ 30`), so that Layer 6
is not consulted, the verdict is independent of the classifier outcome as
well. -/
theorem C9_deterministic :
    (∀ (e1 e2 : ExtractionResult) (o : GeminiOutcome),
      e1.full_text = e2.full_text → e1.page_count = e2.page_count →
      validate_extraction e1 o = validate_extraction e2 o) ∧
    (∀ (e : ExtractionResult) (o1 o2 : GeminiOutcome),
      30 ≤ business_score_of (pyLower (sanitize_extracted_text e.full_text)) →
      validate_extraction e o1 = validate_extraction e o2) := by
  constructor
  · rintro ⟨t1, p1, m1⟩ ⟨t2, p2, m2⟩ o ht hp
    simp only at ht hp
    subst ht
    subst hp
    rfl
  · intro e o1 o2 hbs
    have hngate : ∀ o : GeminiOutcome,
        ¬(business_score_of (pyLower (sanitize_extracted_text e.full_text)) < 30 ∧
          gemini_document_type_check o
            (business_score_of (pyLower (sanitize_extracted_text e.full_text)))
            = false) :=
      fun o h => absurd h.1 (by omega)
    unfold validate_extraction
    dsimp only
    rw [if_neg (hngate o1), if_neg (hngate o2)]

/-- A short text with business score 34 (scaled by 10): `revenue` (1.3),
`product` (1.0), `team` (1.1). -/
def c9_business_text : PyText := ("revenue product team").toList

/-- Witness for `C9_deterministic` at concrete inputs. -/
theorem C9_deterministic_witness :
    validate_extraction ⟨c9_business_text, 1, "online_ocr"⟩ GeminiOutcome.failure =
      validate_extraction ⟨c9_business_text, 1, "batch_ocr"⟩ GeminiOutcome.failure ∧
    validate_extraction ⟨c9_business_text, 1, "online_ocr"⟩ GeminiOutcome.noModel =
      validate_extraction ⟨c9_business_text, 1, "online_ocr"⟩ GeminiOutcome.failure :=
  ⟨C9_deterministic.1 ⟨c9_business_text, 1, "online_ocr"⟩
      ⟨c9_business_text, 1, "batch_ocr"⟩ GeminiOutcome.failure rfl rfl,
   C9_deterministic.2 ⟨c9_business_text, 1, "online_ocr"⟩
      GeminiOutcome.noModel GeminiOutcome.failure (by decide)⟩

/-! ## Claim C1 -/

/-- A text with business score 21 (scaled by 10), i.e. 2.1 - below the
Layer 6 threshold of 3 but above the Layer 3 cutoff of 2 - and no other
rejection trigger. -/
def c1_text : PyText :=
  ("the team built a product b c d e f g h i j k l m n o p q r s t u v w x y z").toList

/-- C1 failing input: when Layer 6 is invoked (`business_score < 3`,
scaled `< 30`) and the classifier call fails (exception caught inside
`gemini_document_type_check`, or no model available), the internal numeric
fallback `business_score >= 4` is necessarily false, so the check returns
False and `validate_extraction` rejects with GEMINI_VALIDATION_FAILED -
the failure is NOT failed open, contradicting both the spec and the
source's own "non-blocking"/"Continue anyway if Gemini fails" comments
(whose except-branch is unreachable because `gemini_document_type_check`
catches all its exceptions internally).  The same input passes when the
classifier answers YES, showing the rejection is caused by the failure
alone. -/
theorem C1_fail_closed :
    business_score_of (pyLower (sanitize_extracted_text c1_text)) = 21 ∧
    gemini_document_type_check GeminiOutcome.failure 21 = false ∧
    gemini_document_type_check GeminiOutcome.noModel 21 = false ∧
    validate_extraction ⟨c1_text, 1, "online_ocr"⟩ GeminiOutcome.failure =
      ⟨false, "GEMINI_VALIDATION_FAILED", "AI analysis suggests this may not be a business document. Please verify and try again."⟩ ∧
    (validate_extraction ⟨c1_text, 1, "online_ocr"⟩
      (GeminiOutcome.response ("YES".toList))).is_valid = true := by
  refine ⟨by decide, by decide, by decide, by decide, by decide⟩

/-! ## Claim C2 -/

/-- C2 counterexample: a single file with empty text classifies as UNKNOWN,
yet `validate_file_set` rejects it with SUPPLEMENTARY_ONLY, not
UNKNOWN_DOCUMENTS - the non-primary UNKNOWN classification sets
`has_supplementary_document`, so Case 1 fires first. -/
theorem C2_counterexample :
    (classify_document_type [] default_filename).type = "UNKNOWN" ∧
    (validate_file_set [[]]).code = "SUPPLEMENTARY_ONLY" ∧
    (validate_file_set [[]]).code ≠ "UNKNOWN_DOCUMENTS" := by
  refine ⟨by decide, by decide, by decide⟩

/-- C2 (amended): for every non-empty list of files whose classifications
are all UNKNOWN, `validate_file_set` rejects with SUPPLEMENTARY_ONLY, not
UNKNOWN_DOCUMENTS; the UNKNOWN_DOCUMENTS branch is unreachable for
non-empty input because every non-primary file - UNKNOWN included - sets
`has_supplementary_document`. -/
theorem C2_all_unknown (ts : List PyText) (hne : ts ≠ [])
    (hall : ∀ t ∈ ts, (classify_document_type t default_filename).type = "UNKNOWN") :
    validate_file_set ts =
      ⟨false, "SUPPLEMENTARY_ONLY", "Resume/Profile alone cannot be analyzed. Please upload a pitch deck, financial model, or business plan along with it."⟩ := by
  have hnp : ∀ t ∈ ts, (classify_document_type t default_filename).is_primary = false :=
    fun t ht => classify_unknown_not_primary t default_filename (hall t ht)
  have hppred : (ts.map (fun text => classify_document_type text default_filename)).any
      (fun d => d.is_primary) = false := by
    rw [List.any_eq_false]
    intro d hd
    rw [List.mem_map] at hd
    obtain ⟨t, ht, rfl⟩ := hd
    simp [hnp t ht]
  have hsupp : (ts.map (fun text => classify_document_type text default_filename)).any
      (fun d => !d.is_primary) = true := by
    cases ts with
    | nil => exact absurd rfl hne
    | cons t ts' =>
      rw [List.any_eq_true]
      refine ⟨classify_document_type t default_filename, List.mem_map_of_mem _ (by simp), ?_⟩
      simp [hnp t (by simp)]
  unfold validate_file_set
  dsimp only
  rw [if_neg (by simpa [List.isEmpty_iff] using hne),
    if_pos (by rw [hsupp, hppred]; rfl)]

/-- Witness for `C2_all_unknown` at a concrete input. -/
theorem C2_all_unknown_witness :
    validate_file_set [("hello world").toList] =
      ⟨false, "SUPPLEMENTARY_ONLY", "Resume/Profile alone cannot be analyzed. Please upload a pitch deck, financial model, or business plan along with it."⟩ :=
  C2_all_unknown [("hello world").toList] (by decide) (by decide)

/-! ## Claim C7 -/

/-- C7: any file set containing at least one primary classification is
accepted regardless of what else accompanies it; a set containing at least
one RESUME and no primary classification is rejected SUPPLEMENTARY_ONLY;
the empty set is rejected NO_FILES. -/
theorem C7_file_set (ts : List PyText) :
    ((∃ t ∈ ts, (classify_document_type t default_filename).is_primary = true) →
      validate_file_set ts = ⟨true, "VALID", "File set validation passed"⟩) ∧
    ((∃ t ∈ ts, (classify_document_type t default_filename).type = "RESUME") →
      (∀ t ∈ ts, (classify_document_type t default_filename).is_primary = false) →
      validate_file_set ts =
        ⟨false, "SUPPLEMENTARY_ONLY", "Resume/Profile alone cannot be analyzed. Please upload a pitch deck, financial model, or business plan along with it."⟩) ∧
    validate_file_set [] = ⟨false, "NO_FILES", "No files to validate"⟩ := by
  refine ⟨?_, ?_, by decide⟩
  · rintro ⟨t, ht, hprim⟩
    have hne : ts ≠ [] := by
      rintro rfl
      exact absurd ht (List.not_mem_nil t)
    have hpp : (ts.map (fun text => classify_document_type text default_filename)).any
        (fun d => d.is_primary) = true := by
      rw [List.any_eq_true]
      exact ⟨classify_document_type t default_filename, List.mem_map_of_mem _ ht, hprim⟩
    unfold validate_file_set
    dsimp only
    rw [if_neg (by simpa [List.isEmpty_iff] using hne),
      if_neg (by rw [hpp]; simp), if_pos hpp]
  · rintro ⟨t, ht, _⟩ hall
    have hne : ts ≠ [] := by
      rintro rfl
      exact absurd ht (List.not_mem_nil t)
    have hppred : (ts.map (fun text => classify_document_type text default_filename)).any
        (fun d => d.is_primary) = false := by
      rw [List.any_eq_false]
      intro d hd
      rw [List.mem_map] at hd
      obtain ⟨u, hu, rfl⟩ := hd
      simp [hall u hu]
    have hsupp : (ts.map (fun text => classify_document_type text default_filename)).any
        (fun d => !d.is_primary) = true := by
      rw [List.any_eq_true]
      refine ⟨classify_document_type t default_filename, List.mem_map_of_mem _ ht, ?_⟩
      simp [hall t ht]
    unfold validate_file_set
    dsimp only
    rw [if_neg (by simpa [List.isEmpty_iff] using hne),
      if_pos (by rw [hsupp, hppred]; rfl)]

/-- Text classifying as RESUME (two resume-vocabulary hits). -/
def resume_text : PyText := ("resume cv").toList

/-- Text classifying as PITCH_DECK (two pitch-vocabulary hits). -/
def pitch_text : PyText := ("pitch startup").toList

/-- Witness for `C7_file_set`: a RESUME next to a PITCH_DECK is accepted;
the RESUME alone is rejected SUPPLEMENTARY_ONLY. -/
theorem C7_file_set_witness :
    validate_file_set [resume_text, pitch_text] =
      ⟨true, "VALID", "File set validation passed"⟩ ∧
    validate_file_set [resume_text] =
      ⟨false, "SUPPLEMENTARY_ONLY", "Resume/Profile alone cannot be analyzed. Please upload a pitch deck, financial model, or business plan along with it."⟩ :=
  ⟨(C7_file_set [resume_text, pitch_text]).1 ⟨pitch_text, by decide, by decide⟩,
   (C7_file_set [resume_text]).2.1 ⟨resume_text, by decide, by decide⟩ (by decide)⟩

/-! ## Claim C4 -/

/-- The page-limit vocabulary quoted by the spec: the error message
contains "page limit exceeded", "exceeds" or "non-imageless". -/
def spec_page_limit_vocabulary (error_str : PyText) : Prop :=
  ("page limit exceeded".toList) <:+: error_str ∨
  ("exceeds".toList) <:+: error_str ∨
  ("non-imageless".toList) <:+: error_str

instance (error_str : PyText) : Decidable (spec_page_limit_vocabulary error_str) := by
  unfold spec_page_limit_vocabulary
  infer_instance

/-- Every error matching the spec's quoted vocabulary satisfies the
source's page-limit test. -/
theorem spec_vocab_implies_page_limit (error_str : PyText)
    (h : spec_page_limit_vocabulary error_str) :
    page_limit_error error_str = true := by
  unfold page_limit_error
  simp only [Bool.or_eq_true, decide_eq_true_eq]
  rcases h with h | h | h
  · have hmap : pyLower ("page limit exceeded".toList) <:+: pyLower error_str :=
      List.IsInfix.map _ h
    have heq : pyLower ("page limit exceeded".toList)
        = ("page limit exceeded").toList := by decide
    have hexc : ("exceed".toList) <:+: pyLower error_str :=
      List.IsInfix.trans (by decide) (heq ▸ hmap)
    exact Or.inr hexc
  · have hmap : pyLower ("exceeds".toList) <:+: pyLower error_str :=
      List.IsInfix.map _ h
    have heq : pyLower ("exceeds".toList) = ("exceeds").toList := by decide
    have hexc : ("exceed".toList) <:+: pyLower error_str :=
      List.IsInfix.trans (by decide) (heq ▸ hmap)
    exact Or.inr hexc
  · exact Or.inl (Or.inr h)

/-- C4 counterexample: the claim says an error message not matching the
quoted vocabulary ("page limit exceeded" / "exceeds" / "non-imageless") is
fatal with no fallback attempted - but the source's test is broader
(`"exceed" in error_str.lower()`): the message "page limit was exceeded"
contains none of the three quoted patterns, yet `extract_with_document_ai`
falls back to batch processing on it. -/
theorem C4_counterexample :
    ¬ spec_page_limit_vocabulary (("page limit was exceeded").toList) ∧
    page_limit_error (("page limit was exceeded").toList) = true ∧
    extract_with_document_ai
        (OnlineOutcome.failure (("page limit was exceeded").toList))
        (BatchOutcome.success ⟨("forty pages").toList, 40, "batch_ocr"⟩) =
      Except.ok ⟨("forty pages").toList, 40, "batch_ocr"⟩ := by
  refine ⟨by decide, by decide, by rfl⟩

/-- C4 (amended): the batch fallback is triggered exactly by the source's
page-limit test - the message contains `"PAGE_LIMIT_EXCEEDED"` or
`"non-imageless"`, or its lower-casing contains `"exceed"` - which is a
strict superset of the spec's quoted vocabulary: every message matching
one of the quoted patterns falls back to batch processing, with a batch
failure propagating as the final error, and an error failing the source's
test propagates directly with no fallback attempted. -/
theorem C4_error_dispatch (error_str : PyText) (b : BatchOutcome) :
    (spec_page_limit_vocabulary error_str →
      extract_with_document_ai (OnlineOutcome.failure error_str) b =
        match b with
        | BatchOutcome.success r => Except.ok r
        | BatchOutcome.failure batch_error => Except.error batch_error) ∧
    (page_limit_error error_str = true →
      extract_with_document_ai (OnlineOutcome.failure error_str) b =
        match b with
        | BatchOutcome.success r => Except.ok r
        | BatchOutcome.failure batch_error => Except.error batch_error) ∧
    (page_limit_error error_str = false →
      extract_with_document_ai (OnlineOutcome.failure error_str) b =
        Except.error error_str) := by
  refine ⟨?_, ?_, ?_⟩
  · intro h
    unfold extract_with_document_ai
    dsimp only
    rw [if_pos (spec_vocab_implies_page_limit error_str h)]
  · intro h
    unfold extract_with_document_ai
    dsimp only
    rw [if_pos h]
  · intro h
    unfold extract_with_document_ai
    dsimp only
    rw [if_neg (by simp [h])]

/-- Witness for `C4_error_dispatch`: each quoted vocabulary pattern
triggers the batch fallback (including batch-failure propagation), a
message matching only the source's broader test also falls back, and a
non-matching error is fatal with no fallback. -/
theorem C4_error_dispatch_witness :
    extract_with_document_ai
        (OnlineOutcome.failure (("page limit exceeded").toList))
        (BatchOutcome.success ⟨("forty pages").toList, 40, "batch_ocr"⟩) =
      Except.ok ⟨("forty pages").toList, 40, "batch_ocr"⟩ ∧
    extract_with_document_ai
        (OnlineOutcome.failure (("request exceeds the limit").toList))
        (BatchOutcome.failure (("batch timed out").toList)) =
      Except.error (("batch timed out").toList) ∧
    extract_with_document_ai
        (OnlineOutcome.failure (("non-imageless mode required").toList))
        (BatchOutcome.success ⟨("forty pages").toList, 40, "batch_ocr"⟩) =
      Except.ok ⟨("forty pages").toList, 40, "batch_ocr"⟩ ∧
    extract_with_document_ai
        (OnlineOutcome.failure (("PAGE_LIMIT_EXCEEDED: request too large").toList))
        (BatchOutcome.success ⟨("forty pages").toList, 40, "batch_ocr"⟩) =
      Except.ok ⟨("forty pages").toList, 40, "batch_ocr"⟩ ∧
    extract_with_document_ai
        (OnlineOutcome.failure (("invalid PDF data").toList))
        (BatchOutcome.success ⟨("forty pages").toList, 40, "batch_ocr"⟩) =
      Except.error (("invalid PDF data").toList) :=
  ⟨(C4_error_dispatch _ _).1 (Or.inl (by decide)),
   (C4_error_dispatch _ _).1 (Or.inr (Or.inl (by decide))),
   (C4_error_dispatch _ _).1 (Or.inr (Or.inr (by decide))),
   (C4_error_dispatch _ _).2.1 (by decide),
   (C4_error_dispatch _ _).2.2 (by decide)⟩

/-! ## Claim C5 -/

/-- Two shards discovered out of name order, with non-empty texts. -/
def c5_blobs : List Shard :=
  [⟨("output-0002.json").toList, ("b").toList, 1⟩,
   ⟨("output-0001.json").toList, ("a").toList, 2⟩]

/-- C5 counterexample: the merge loop appends `"\n" + document.text` for
every shard, so the merged text starts with a newline before the first
shard's text - it is not the shard texts joined only by separating
newlines between shards ("a" then "b" would give "a\nb", the code gives
"\na\nb").  Page counts do sum and the order is the name-sorted one. -/
theorem C5_counterexample :
    batch_process_document c5_blobs CleanupOutcome.success =
      Except.ok ⟨("\na\nb").toList, 3, "batch_ocr"⟩ ∧
    ("\na\nb").toList ≠ ("a\nb").toList := by
  exact ⟨by rfl, by decide⟩

/-- C5 (amended): on batch success with at least one `.json` shard, the
merged `full_text` is, over the shards in name-sorted order (independent
of discovery order), the concatenation of a newline followed by the
shard's text for every shard with non-empty text (so including a leading
newline), and `page_count` is the sum of the shards' page counts. -/
theorem C5_merge (output_blobs : List Shard) (cleanup : CleanupOutcome)
    (hjson : output_blobs.filter
      (fun b => (".json".toList).isSuffixOf b.name) ≠ []) :
    ∃ ws : List Shard,
      ws.Perm (output_blobs.filter
        (fun b => (".json".toList).isSuffixOf b.name)) ∧
      List.Sorted shardLe ws ∧
      batch_process_document output_blobs cleanup =
        Except.ok ⟨ws.flatMap (fun b => if b.text.isEmpty then [] else '\n' :: b.text),
                   (ws.map (fun b => b.pages)).sum, "batch_ocr"⟩ := by
  refine ⟨(output_blobs.filter
      (fun b => (".json".toList).isSuffixOf b.name)).insertionSort shardLe,
    List.perm_insertionSort _ _, List.sorted_insertionSort _ _, ?_⟩
  have hne : output_blobs ≠ [] := by
    intro h
    rw [h] at hjson
    simp at hjson
  unfold batch_process_document
  dsimp only
  rw [if_neg (by simpa [List.isEmpty_iff] using hne),
    if_neg (by simpa [List.isEmpty_iff] using hjson)]
  cases cleanup with
  | success =>
    rw [foldl_text_append, foldl_pages_sum]
    try simp
  | failure m =>
    rw [foldl_text_append, foldl_pages_sum]
    try simp

/-- Witness for `C5_merge` at the concrete out-of-order shard list. -/
theorem C5_merge_witness :
    ∃ ws : List Shard,
      ws.Perm (c5_blobs.filter
        (fun b => (".json".toList).isSuffixOf b.name)) ∧
      List.Sorted shardLe ws ∧
      batch_process_document c5_blobs CleanupOutcome.success =
        Except.ok ⟨ws.flatMap (fun b => if b.text.isEmpty then [] else '\n' :: b.text),
                   (ws.map (fun b => b.pages)).sum, "batch_ocr"⟩ :=
  C5_merge c5_blobs CleanupOutcome.success (by decide)

/-! ## Claim C6 -/

/-- The cleanup outcome never influences the value returned by
`batch_process_document` (the source wraps the deletions in a bare
try/except that only logs). -/
theorem batch_cleanup_irrelevant (output_blobs : List Shard)
    (c : CleanupOutcome) :
    batch_process_document output_blobs c =
      batch_process_document output_blobs CleanupOutcome.success := by
  cases c with
  | success => rfl
  | failure m => rfl

/-- C6: if the best-effort deletion of the staged input or output objects
fails after a successful batch extraction, `batch_process_document` still
returns the very same successful ExtractionResult; a cleanup failure is
never re-raised. -/
theorem C6_cleanup_nonfatal (output_blobs : List Shard) (c : CleanupOutcome)
    (r : ExtractionResult)
    (h : batch_process_document output_blobs CleanupOutcome.success =
      Except.ok r) :
    batch_process_document output_blobs c = Except.ok r := by
  rw [batch_cleanup_irrelevant]
  exact h

/-- A successful single-shard batch output. -/
def c6_blobs : List Shard :=
  [⟨("output-0001.json").toList, ("hello").toList, 2⟩]

/-- Witness for `C6_cleanup_nonfatal`: a failing cleanup still yields the
successful merged result. -/
theorem C6_cleanup_nonfatal_witness :
    batch_process_document c6_blobs
        (CleanupOutcome.failure (("permission denied").toList)) =
      Except.ok ⟨("\nhello").toList, 2, "batch_ocr"⟩ :=
  C6_cleanup_nonfatal c6_blobs
    (CleanupOutcome.failure (("permission denied").toList))
    ⟨("\nhello").toList, 2, "batch_ocr"⟩ (by rfl)

/-- A 53-character sanitization-stable text. -/
def c3_long_text : PyText :=
  ("abcdefghijklmnopqrstuvwxyz abcdefghijklmnopqrstuvwxyz").toList

/-- Witness for `C3_preconditions` at concrete inputs. -/
theorem C3_preconditions_witness :
    validate_extraction ⟨("hi").toList, 3, "online_ocr"⟩ GeminiOutcome.failure =
      ⟨false, "NO_TEXT_EXTRACTED", "Unable to extract readable text from document. The file may be corrupted, image-only, encrypted, or not a valid business document."⟩ ∧
    validate_extraction ⟨c3_long_text, 0, "online_ocr"⟩ GeminiOutcome.failure =
      ⟨false, "NO_PAGES_DETECTED", "Document appears to be empty or unreadable."⟩ :=
  ⟨(C3_preconditions ⟨("hi").toList, 3, "online_ocr"⟩ GeminiOutcome.failure).1
      (by decide),
   (C3_preconditions ⟨c3_long_text, 0, "online_ocr"⟩ GeminiOutcome.failure).2
      (by decide) rfl⟩
